import Mathlib

/-!
Verification of the order/payment reconciliation core of the printbox3d
backend (Django + Razorpay), against its natural-language specification.

Shallow embedding:
* Money amounts (Python `Decimal`) are modelled as `ℚ` (Decimal arithmetic
  on two-fraction-digit currency values is exact rational arithmetic).
* The one conversion in the code that passes through a Python `float`
  (`RazorpayService.create_order`, which receives `float(total_amount)` and
  computes `int(amount_inr * 100)`) is modelled exactly with a binary64
  round-to-nearest-even model over `ℚ` (normal range; the amounts involved
  are far from overflow/subnormal territory).
* HMAC-SHA256 is treated as an uninterpreted keyed-digest parameter
  `hm : String → String → String`; `hmac.compare_digest` is string equality
  (its constant-time property is irrelevant to functional behaviour).
* The Ledger rows relevant to a reconciliation claim are the single Order
  row (unique per `razorpay_order_id`), its one-to-one Payment row, and the
  product stock table; a lookup by the unique gateway id either hits this
  row or raises DoesNotExist.
* Django status fields are plain strings, exactly as assigned in the code
  (the webhook assigns the string CONFIRMED even though it is not among the
  declared STATUS_CHOICES; Django does not enforce choices on save).
-/

namespace PrintBox

/-! ## Binary64 model for the paise conversion (src/api/services/razorpay_service.py line 66)

The service receives `amount_inr = float(total_amount)` (views.py line 464) and
sends `amount_paise = int(amount_inr * 100)` to the gateway. CPython floats are
IEEE-754 binary64; conversion of a `Decimal` to `float` and each float
multiplication round to the nearest representable value, ties to even. The
model below implements that rounding exactly on `ℚ` for the normal range
(|q| far below 2^1024 and far above 2^-1022, which covers every currency
amount the backend can see). -/

/-- Round a rational to the nearest integer, ties to even. -/
def rnInt (x : ℚ) : ℤ :=
  let f : ℤ := ⌊x⌋
  let r : ℚ := x - (f : ℚ)
  if r < 1/2 then f
  else if 1/2 < r then f + 1
  else if f % 2 = 0 then f else f + 1

/-- Round a positive rational to 53 significant bits (binary64 normal-range
mantissa), nearest, ties to even. -/
def fl64pos (a : ℚ) : ℚ :=
  let e : ℤ := Int.log 2 a
  ((rnInt (a * 2 ^ ((52:ℤ) - e)) : ℚ)) * 2 ^ (e - (52:ℤ))

/-- Nearest binary64 value of a rational (normal range, round to nearest,
ties to even). Models both `float(decimal_value)` and the rounding applied
to each float arithmetic result in CPython. -/
def fl64 (q : ℚ) : ℚ :=
  if q = 0 then 0
  else if q < 0 then -fl64pos (-q)
  else fl64pos q

/-- Python `int()` applied to a float value: truncation toward zero. -/
def pyTrunc (q : ℚ) : ℤ := if 0 ≤ q then ⌊q⌋ else -⌊-q⌋

/-- Paise amount the backend sends to the gateway for an order total
(views.py line 464 `float(total_amount)` feeding razorpay_service.py line 66
`int(amount_inr * 100)`): the total is converted to binary64, multiplied by
100 in float arithmetic, then truncated to an integer. -/
def amount_paise (totalAmount : ℚ) : ℤ := pyTrunc (fl64 (fl64 totalAmount * 100))

/-! ## Reconciliation engine state (src/api/views.py lines 515 to 774)

The rows touched by the verify endpoint, the webhook and the failure-report
endpoint: the Order row identified by its unique `razorpay_order_id`, the
one-to-one Payment row (present once checkout succeeded), and product stock.
`emailsSent` counts dispatches of `send_order_confirmation_email` (the
background thread started at views.py lines 577 to 587). -/

/-- Order row fields used by the reconciliation endpoints (models.py `Order`). -/
structure ROrder where
  orderId : String
  status : String
  paymentStatus : String
  razorpayOrderId : String
  razorpayPaymentId : Option String
  deriving Repr, DecidableEq

/-- Payment row fields used by the reconciliation endpoints (models.py `Payment`). -/
structure RPayment where
  status : String
  razorpayPaymentId : Option String
  errorDescription : String
  deriving Repr, DecidableEq

/-- Ledger slice for one order under reconciliation, plus the stock table and
the count of confirmation notifications dispatched so far. -/
structure RecState where
  order : ROrder
  payment : Option RPayment
  stocks : List (String × ℕ)
  emailsSent : ℕ
  deriving Repr, DecidableEq

/-- HTTP response of the verify endpoint together with the resulting state. -/
structure VResp where
  httpStatus : ℕ
  success : Bool
  state : RecState
  deriving Repr, DecidableEq

/-- RazorpayService.verify_signature (razorpay_service.py lines 91 to 136):
raises ValueError when the key secret is missing (`none`), otherwise compares
the supplied signature with the HMAC-SHA256 hex digest of
`order_id|payment_id` under the key secret. `hm` is the uninterpreted keyed digest. -/
def verify_signature (hm : String → String → String) (keySecret : String)
    (razorpayOrderId razorpayPaymentId razorpaySignature : String) : Option Bool :=
  if keySecret = "" then none
  else some (hm keySecret (razorpayOrderId ++ "|" ++ razorpayPaymentId) == razorpaySignature)

/-- POST branch of verify_payment_simple (views.py lines 541 to 599), after
JSON extraction and `.strip()` of the three fields (the arguments are the
stripped values). Missing field ⇒ 400; unknown gateway order id ⇒ 404;
missing secret raises ValueError which the outer handler turns into 500 with
no state change; signature mismatch ⇒ Order FAILED/FAILED and 400 (the
Payment row is not touched); match ⇒ Order PAID/CAPTURED, payment id
recorded, one confirmation email dispatched, 200. Stock is never touched. -/
def verify_payment_simple (hm : String → String → String) (keySecret : String)
    (st : RecState) (rzOrderId rzPaymentId rzSignature : String) : VResp :=
  if rzOrderId = "" ∨ rzPaymentId = "" ∨ rzSignature = "" then
    ⟨400, false, st⟩
  else if st.order.razorpayOrderId ≠ rzOrderId then
    ⟨404, false, st⟩
  else
    match verify_signature hm keySecret rzOrderId rzPaymentId rzSignature with
    | none => ⟨500, false, st⟩
    | some false =>
        ⟨400, false,
          { st with order := { st.order with status := "FAILED", paymentStatus := "FAILED" } }⟩
    | some true =>
        ⟨200, true,
          { st with
            order := { st.order with
              status := "PAID", paymentStatus := "CAPTURED",
              razorpayPaymentId := some rzPaymentId },
            emailsSent := st.emailsSent + 1 }⟩

/-- RazorpayService.verify_webhook_signature (razorpay_service.py lines 138
to 163): returns false when the webhook secret is unset, otherwise compares
the header signature with the HMAC-SHA256 digest of the raw body under the
webhook secret. -/
def verify_webhook_signature (hm : String → String → String) (webhookSecret : String)
    (body sig : String) : Bool :=
  if webhookSecret = "" then false else hm webhookSecret body == sig

/-- Entity fields read from `payload.payload.payment.entity` with
with get-defaults of the empty string (views.py lines 748, 749, 763). -/
structure WebhookEntity where
  orderId : String
  paymentId : String
  deriving Repr, DecidableEq

/-- Shape of a JSON-parsed webhook body: the event name read with a
get-default of the empty string, and the
payload.payment.entity object when the
path exists. A captured/failed event whose body lacks that object makes the
direct subscripts at views.py lines 748 and 763 raise KeyError. -/
structure WebhookEvent where
  event : String
  entity : Option WebhookEntity
  deriving Repr, DecidableEq

/-- Status strings treated as confirmed-and-beyond by the webhook guards
(views.py lines 752 and 766). -/
def confirmedAndBeyond (status : String) : Bool :=
  status == "CONFIRMED" || status == "SHIPPED" || status == "DELIVERED"

/-- razorpay_webhook (views.py lines 723 to 774). `parse` models
`json.loads` plus field extraction (`none` = JSONDecodeError ⇒ 400). Invalid
whole-body signature ⇒ 400 before any parsing. `payment.captured` with a
matching order not already confirmed-and-beyond ⇒ Order CONFIRMED with
payment_status PAID, Payment row CAPTURED with the payment id recorded.
`payment.failed` symmetric with FAILED. Unknown event or unknown order ⇒ 200
no-op. A captured/failed body without the entity object raises KeyError,
which Django surfaces as 500 with no state change. No stock change and no
notification anywhere on this path. -/
def razorpay_webhook (hm : String → String → String)
    (parse : String → Option WebhookEvent) (webhookSecret : String)
    (st : RecState) (method body sig : String) : ℕ × RecState :=
  if method ≠ "POST" then (405, st)
  else if ¬ verify_webhook_signature hm webhookSecret body sig then (400, st)
  else
    match parse body with
    | none => (400, st)
    | some ev =>
      if ev.event = "payment.captured" then
        match ev.entity with
        | none => (500, st)
        | some ent =>
          if ent.orderId = st.order.razorpayOrderId then
            if confirmedAndBeyond st.order.status then (200, st)
            else
              (200,
                { st with
                  order := { st.order with status := "CONFIRMED", paymentStatus := "PAID" },
                  payment := st.payment.map (fun pm =>
                    { pm with status := "CAPTURED", razorpayPaymentId := some ent.paymentId }) })
          else (200, st)
      else if ev.event = "payment.failed" then
        match ev.entity with
        | none => (500, st)
        | some ent =>
          if ent.orderId = st.order.razorpayOrderId then
            if confirmedAndBeyond st.order.status then (200, st)
            else
              (200,
                { st with
                  order := { st.order with status := "FAILED", paymentStatus := "FAILED" },
                  payment := st.payment.map (fun pm => { pm with status := "FAILED" }) })
          else (200, st)
      else (200, st)

/-- payment_failed (views.py lines 616 to 642): looks the order up by its
internal order_id and unconditionally sets Order FAILED/FAILED, and the
Payment row (when it exists) FAILED with the reported error description.
There is no confirmed-and-beyond guard on this endpoint. -/
def payment_failed (st : RecState) (orderId errorDescription : String) : ℕ × RecState :=
  if orderId = st.order.orderId then
    (200,
      { st with
        order := { st.order with status := "FAILED", paymentStatus := "FAILED" },
        payment := st.payment.map (fun pm =>
          { pm with status := "FAILED", errorDescription := errorDescription }) })
  else (404, st)

/-! ## Checkout orchestrator (src/api/views.py lines 331 to 509)

The create_order endpoint: validate cart lines against the catalog, apply an
optional coupon, write the Order and its OrderItems, bump the coupon usage
counter, call the gateway, and either persist the gateway id plus a Payment
row or roll the Order back. -/

/-- Python str.strip for the ASCII whitespace that can occur in these fields. -/
def isPySpace (ch : Char) : Bool :=
  ch == ' ' || ch == '\t' || ch == '\n' || ch == '\r'

/-- Python str.strip modelled on the character list of the string. -/
def pyStrip (s : String) : String :=
  ⟨((s.data.dropWhile isPySpace).reverse.dropWhile isPySpace).reverse⟩

/-- Python str.upper for the ASCII coupon codes the backend handles. -/
def pyUpper (s : String) : String :=
  ⟨s.data.map Char.toUpper⟩

/-- Catalog product fields used by create_order (models.py `Product`). -/
structure Product where
  id : ℕ
  name : String
  price : ℚ
  imageUrl : String
  stockQuantity : ℕ
  isAvailable : Bool
  deriving Repr, DecidableEq

/-- Coupon row. The `Coupon` model class itself is not part of the src
snapshot (only its callers in views.py and admin.py are); the fields are the
ones those callers read, as documented in the data-model section of the
spec: `key` is the database primary key, `maxUses` none means unlimited,
`expiryDate` is a day number (none = no expiry). -/
structure Coupon where
  key : ℕ
  code : String
  isActive : Bool
  discountType : String
  discountValue : ℚ
  maxDiscountAmount : Option ℚ
  minOrderAmount : ℚ
  maxUses : Option ℕ
  timesUsed : ℕ
  expiryDate : Option ℕ
  deriving Repr, DecidableEq

/-- Modelled from the spec: `Coupon.calculate_discount` lives on the Coupon
model class, which is missing from the src snapshot. Spec section 4.3:
PERCENT gives `cart_total * discount_value / 100` clamped to
`max_discount_amount` when set; FLAT gives `min(discount_value, cart_total)`. -/
def Coupon.calculate_discount (c : Coupon) (cartTotal : ℚ) : ℚ :=
  if c.discountType = "PERCENT" then
    match c.maxDiscountAmount with
    | some m => min (cartTotal * c.discountValue / 100) m
    | none => cartTotal * c.discountValue / 100
  else
    min c.discountValue cartTotal

/-- Expiry check of views.py line 424: `expiry_date and expiry_date < today`. -/
def couponExpired (c : Coupon) (today : ℕ) : Bool :=
  match c.expiryDate with
  | some d => decide (d < today)
  | none => false

/-- Usage-cap check of views.py line 425: `max_uses is not None and times_used >= max_uses`. -/
def couponMaxed (c : Coupon) : Bool :=
  match c.maxUses with
  | some m => decide (m ≤ c.timesUsed)
  | none => false

/-- Minimum-order check of views.py line 426: `total_amount < min_order_amount`. -/
def couponBelowMin (c : Coupon) (total : ℚ) : Bool :=
  decide (total < c.minOrderAmount)

/-- Combined revalidation of views.py line 427: the coupon is applied only
when it is not expired, not maxed out, and the cart total reaches the
minimum. -/
def couponValidCheck (c : Coupon) (today : ℕ) (total : ℚ) : Bool :=
  !couponExpired c today && !couponMaxed c && !couponBelowMin c total

/-- Usage increment of views.py line 459:
`Coupon.objects.filter(pk=...).update(times_used=applied_coupon.times_used + 1)`.
The written value is the snapshot read at validation time plus one; the
UPDATE carries no `times_used < max_uses` condition. -/
def couponIncrementWrite (c : Coupon) (staleTimesUsed : ℕ) : Coupon :=
  { c with timesUsed := staleTimesUsed + 1 }

/-- Cart line as validated by CreateOrderSerializer (product_id, quantity). -/
structure ReqItem where
  productId : ℕ
  quantity : ℕ
  deriving Repr, DecidableEq

/-- OrderItem row snapshot created at views.py lines 399 to 406 and 453 to 455. -/
structure OrderItemRec where
  productId : Option ℕ
  productName : String
  productPrice : ℚ
  productImage : String
  quantity : ℕ
  subtotal : ℚ
  deriving Repr, DecidableEq

/-- Order row as created by the checkout path. `discountAmount` and
`couponCode` are modelled from the spec data-model section (the fields are
written by views.py but the src snapshot of models.py predates the coupon
migration). `key` is the database primary key; `orderId` the external id. -/
structure OrderRow where
  key : ℕ
  orderId : String
  status : String
  paymentStatus : String
  totalAmount : ℚ
  discountAmount : ℚ
  couponCode : String
  razorpayOrderId : Option String
  items : List OrderItemRec
  deriving Repr, DecidableEq

/-- Payment row created at views.py lines 474 to 480. -/
structure PaymentRow where
  orderKey : ℕ
  razorpayOrderId : String
  amount : ℚ
  currency : String
  status : String
  deriving Repr, DecidableEq

/-- Ledger state seen by create_order. `nextOrderKey` models the primary-key
sequence; OrderItems live inside their OrderRow because they are created
with the order and cascade-deleted with it. -/
structure ShopState where
  products : List Product
  coupons : List Coupon
  orders : List OrderRow
  payments : List PaymentRow
  nextOrderKey : ℕ
  deriving Repr, DecidableEq

/-- Outcome of the external Razorpay create-intent call: success with the
gateway order id, ValueError for missing credentials, or any other
exception from the API call. -/
inductive GatewayOutcome where
  | ok (rzId : String)
  | configError
  | apiError
  deriving Repr, DecidableEq

/-- Validation failure during the cart loop of views.py lines 385 to 411. -/
inductive ItemErr where
  | insufficientStock (productName : String) (available : ℕ)
  | productNotFound (productId : ℕ)
  deriving Repr, DecidableEq

/-- Payload returned to the client on success (views.py lines 482 to 491). -/
structure CreateResp where
  orderId : String
  razorpayOrderId : String
  amountPaise : ℤ
  currency : String
  deriving Repr, DecidableEq

/-- HTTP-level result of create_order. -/
inductive CreateResult where
  | badRequest (msg : String)
  | notFound (msg : String)
  | gatewayUnavailable (configMissing : Bool)
  | created (resp : CreateResp)
  deriving Repr, DecidableEq

/-- Product lookup of views.py line 387:
`Product.objects.get(id=item.product_id, is_available=True)`. -/
def findProduct (products : List Product) (pid : ℕ) : Option Product :=
  products.find? (fun p => p.id == pid && p.isAvailable)

/-- Cart validation loop of views.py lines 385 to 411: resolve each line
against the catalog, fail on the first unresolvable id or stock shortfall,
otherwise accumulate the subtotal sum and the OrderItem snapshots. -/
def buildItems (products : List Product) : List ReqItem → Except ItemErr (ℚ × List OrderItemRec)
  | [] => .ok (0, [])
  | it :: rest =>
    match findProduct products it.productId with
    | none => .error (.productNotFound it.productId)
    | some p =>
      if p.stockQuantity < it.quantity then
        .error (.insufficientStock p.name p.stockQuantity)
      else
        match buildItems products rest with
        | .error e => .error e
        | .ok (t, os) =>
          .ok (p.price * (it.quantity : ℚ) + t,
               { productId := some it.productId, productName := p.name,
                 productPrice := p.price, productImage := p.imageUrl,
                 quantity := it.quantity,
                 subtotal := p.price * (it.quantity : ℚ) } :: os)

/-- Coupon application of views.py lines 413 to 433: empty code or unknown
or inactive code is silently ignored; a found active coupon is revalidated
and, when valid, its discount is subtracted from the total with a floor of
zero. Returns (applied coupon snapshot, discount_amount, new total). -/
def applyCoupon (coupons : List Coupon) (today : ℕ) (codeIn : String) (total0 : ℚ) :
    Option Coupon × ℚ × ℚ :=
  if codeIn = "" then (none, 0, total0)
  else
    match coupons.find? (fun c => c.code == codeIn && c.isActive) with
    | none => (none, 0, total0)
    | some c =>
      if couponValidCheck c today total0 then
        (some c, c.calculate_discount total0,
         max 0 (total0 - c.calculate_discount total0))
      else (none, 0, total0)

/-- External order id generated at models.py lines 262 to 271 (timestamp
plus random suffix in the source; modelled as a deterministic function of
the fresh primary key, which preserves uniqueness). -/
def mkOrderId (k : ℕ) : String := "ORD" ++ toString k

/-- Order INSERT of views.py lines 436 to 455 (the Order row and its items
are created together; items cascade with the row). -/
def insertOrderStep (st : ShopState) (o : OrderRow) : ShopState :=
  { st with orders := st.orders ++ [o], nextOrderKey := st.nextOrderKey + 1 }

/-- Coupon usage UPDATE of views.py lines 457 to 459, applied to the row
with the snapshot primary key. -/
def bumpCouponStep (st : ShopState) (applied : Option Coupon) : ShopState :=
  match applied with
  | none => st
  | some c =>
    { st with coupons := st.coupons.map (fun x =>
        if x.key = c.key then couponIncrementWrite x c.timesUsed else x) }

/-- Compensating `order.delete()` of views.py lines 495 and 504 (cascades to
the OrderItems, which live inside the row). -/
def deleteOrderStep (st : ShopState) (k : ℕ) : ShopState :=
  { st with orders := st.orders.filter (fun o => o.key ≠ k) }

/-- Persisting the gateway order id, views.py lines 470 and 471. -/
def setRzOrderIdStep (st : ShopState) (k : ℕ) (rzId : String) : ShopState :=
  { st with orders := st.orders.map (fun o =>
      if o.key = k then { o with razorpayOrderId := some rzId } else o) }

/-- Payment row INSERT of views.py lines 474 to 480. -/
def insertPaymentStep (st : ShopState) (p : PaymentRow) : ShopState :=
  { st with payments := st.payments ++ [p] }

/-- Tail of create_order after validation (views.py lines 436 to 509):
write the Order and items, bump the coupon, call the gateway; on gateway
failure delete the just-created Order (ValueError reports the missing
configuration, any other exception the failed API call); on success record
the gateway id, insert the Payment row and answer 201. -/
def finishOrder (gw : GatewayOutcome) (st : ShopState) (applied : Option Coupon)
    (discount total : ℚ) (items : List OrderItemRec) : CreateResult × ShopState :=
  let k := st.nextOrderKey
  let order : OrderRow :=
    { key := k, orderId := mkOrderId k, status := "PENDING", paymentStatus := "PENDING",
      totalAmount := total, discountAmount := discount,
      couponCode := (match applied with | some c => c.code | none => ""),
      razorpayOrderId := none, items := items }
  let st2 := bumpCouponStep (insertOrderStep st order) applied
  match gw with
  | .configError => (.gatewayUnavailable true, deleteOrderStep st2 k)
  | .apiError => (.gatewayUnavailable false, deleteOrderStep st2 k)
  | .ok rzId =>
    (.created
       { orderId := order.orderId, razorpayOrderId := rzId,
         amountPaise := amount_paise total, currency := "INR" },
     insertPaymentStep (setRzOrderIdStep st2 k rzId)
       { orderKey := k, razorpayOrderId := rzId, amount := total,
         currency := "INR", status := "CREATED" })

/-- Request body of create_order after serializer validation: the cart
lines, plus the raw value the view reads for the coupon code with a
get-default of the empty string (views.py line 414). -/
structure CreateReq where
  items : List ReqItem
  couponCode : String
  deriving Repr, DecidableEq

/-- create_order (views.py lines 331 to 509): validate every cart line
before any write, normalise and apply the coupon code, then run the write
path. `today` is the current date for the expiry check; `gw` the outcome of
the external gateway call. -/
def create_order (today : ℕ) (gw : GatewayOutcome) (st : ShopState) (req : CreateReq) :
    CreateResult × ShopState :=
  match buildItems st.products req.items with
  | .error (.insufficientStock n _) =>
      (.badRequest ("Insufficient stock for " ++ n), st)
  | .error (.productNotFound pid) =>
      (.notFound ("Product with ID " ++ toString pid ++ " not found"), st)
  | .ok (total0, items) =>
    let r := applyCoupon st.coupons today (pyUpper (pyStrip req.couponCode)) total0
    finishOrder gw st r.1 r.2.1 r.2.2 items

/-- Field names declared on CreateOrderSerializer (serializers.py lines 157
to 170). There is no coupon_code field. -/
def createOrderSerializerFields : List String :=
  ["customer_name", "customer_email", "customer_phone", "shipping_address",
   "shipping_city", "shipping_state", "shipping_pincode", "items"]

/-- Modelled from the spec and Django REST Framework semantics (the
framework is not part of src): `serializer.validated_data` keeps exactly the
declared fields of the submitted scalar data, dropping everything else. -/
def serializerValidatedData (raw : List (String × String)) : List (String × String) :=
  raw.filter (fun kv => createOrderSerializerFields.contains kv.1)

/-- Python `dict.get(key, default)` on an association list. -/
def dictGetD (d : List (String × String)) (k dflt : String) : String :=
  match d.find? (fun kv => kv.1 == k) with
  | some kv => kv.2
  | none => dflt

/-- Raw create_order request as it reaches the endpoint: the scalar fields
of the JSON body plus the parsed cart lines. -/
structure RawCreateRequest where
  fields : List (String × String)
  items : List ReqItem
  deriving Repr, DecidableEq

/-- create_order as invoked through the public endpoint: the serializer
validates the body, and the view reads `coupon_code` out of
`serializer.validated_data` with a default of the empty string
(views.py line 414). -/
def create_order_view (today : ℕ) (gw : GatewayOutcome) (st : ShopState)
    (raw : RawCreateRequest) : CreateResult × ShopState :=
  create_order today gw st
    { items := raw.items,
      couponCode := dictGetD (serializerValidatedData raw.fields) "coupon_code" "" }

/-- Interleaving of the coupon phases of two concurrent create_order
requests (spec section 5 race): both workers read the same coupon row and
revalidate it (views.py lines 422 to 433) before either performs the usage
UPDATE of line 459, then both UPDATEs run. Returns how many of the two
orders carry the coupon code and the final coupon row. -/
def twoCheckoutsInterleaved (c : Coupon) (today : ℕ) (total : ℚ) : ℕ × Coupon :=
  let applA := couponValidCheck c today total
  let applB := couponValidCheck c today total
  let db1 := if applA then couponIncrementWrite c c.timesUsed else c
  let db2 := if applB then couponIncrementWrite db1 c.timesUsed else db1
  ((if applA then 1 else 0) + (if applB then 1 else 0), db2)

/-- Sum of the subtotal column over a list of OrderItem rows. -/
def sumSubtotals (l : List OrderItemRec) : ℚ :=
  (l.map (fun i => i.subtotal)).sum

/-- Primary keys of all stored orders are below the key sequence value
(always true of an autoincrement primary key). -/
def ordersFresh (st : ShopState) : Prop :=
  ∀ o ∈ st.orders, o.key < st.nextOrderKey

/-- Decidability so that concrete witnesses can discharge freshness. -/
instance (st : ShopState) : Decidable (ordersFresh st) := by
  unfold ordersFresh
  infer_instance

/-! ## Concrete fixtures for witnesses and counterexamples -/

/-- Concrete stand-in for the uninterpreted HMAC-SHA256 hex digest. -/
def hmEx : String → String → String := fun secret msg => secret ++ "#" ++ msg

/-- PENDING order awaiting reconciliation, gateway order id rz1. -/
def exOrder : ROrder :=
  { orderId := "ORD1", status := "PENDING", paymentStatus := "PENDING",
    razorpayOrderId := "rz1", razorpayPaymentId := none }

/-- Payment row in its initial CREATED state. -/
def exPayment : RPayment :=
  { status := "CREATED", razorpayPaymentId := none, errorDescription := "" }

/-- Reconciliation state for a PENDING order with stock 5 of one product. -/
def exState : RecState :=
  { order := exOrder, payment := some exPayment,
    stocks := [("prodA", 5)], emailsSent := 0 }

/-- Same order after it has been fulfilled up to CONFIRMED. -/
def exConfirmedState : RecState :=
  { exState with order := { exOrder with status := "CONFIRMED" } }

/-- Parse result of a well-formed payment.captured webhook body for rz1. -/
def parseCaptured : String → Option WebhookEvent :=
  fun _ => some { event := "payment.captured",
                  entity := some { orderId := "rz1", paymentId := "pay1" } }

/-- Parse result of a well-formed payment.failed webhook body for rz1. -/
def parseFailed : String → Option WebhookEvent :=
  fun _ => some { event := "payment.failed",
                  entity := some { orderId := "rz1", paymentId := "pay1" } }

/-- Parse result of the JSON body consisting only of the pair
event = payment.captured (valid JSON, but without the payload.payment.entity
object that views.py line 748 subscripts into). -/
def parseCapturedNoEntity : String → Option WebhookEvent :=
  fun _ => some { event := "payment.captured", entity := none }

/-- Entity naming gateway order rz1 and payment pay1. -/
def exEntity : WebhookEntity := { orderId := "rz1", paymentId := "pay1" }

/-- Well-formed payment.captured event for rz1. -/
def exCapturedEvent : WebhookEvent :=
  { event := "payment.captured", entity := some exEntity }

/-- Well-formed payment.failed event for rz1. -/
def exFailedEvent : WebhookEvent :=
  { event := "payment.failed", entity := some exEntity }

/-- Catalog product: price 100 rupees, stock 5. -/
def exProduct : Product :=
  { id := 1, name := "prodA", price := 100, imageUrl := "",
    stockQuantity := 5, isAvailable := true }

/-- Active PERCENT coupon, 2 of 5 uses consumed. -/
def exCoupon : Coupon :=
  { key := 1, code := "SAVE10", isActive := true, discountType := "PERCENT",
    discountValue := 10, maxDiscountAmount := some 50, minOrderAmount := 100,
    maxUses := some 5, timesUsed := 2, expiryDate := none }

/-- Active FLAT coupon with exactly one remaining use. -/
def c8coupon : Coupon :=
  { key := 2, code := "LAST1", isActive := true, discountType := "FLAT",
    discountValue := 10, maxDiscountAmount := none, minOrderAmount := 0,
    maxUses := some 1, timesUsed := 0, expiryDate := none }

/-- Shop state with one product and one coupon, empty ledger. -/
def exShop : ShopState :=
  { products := [exProduct], coupons := [exCoupon], orders := [], payments := [],
    nextOrderKey := 0 }

/-- Request for two units of the catalog product, no coupon code. -/
def exReq : CreateReq :=
  { items := [{ productId := 1, quantity := 2 }], couponCode := "" }

/-- Request naming a product id that the catalog does not contain. -/
def exReqBadProduct : CreateReq :=
  { items := [{ productId := 9, quantity := 1 }], couponCode := "" }

/-- Catalog with a single product priced 8.29 rupees. -/
def c9product : Product :=
  { id := 1, name := "cableTag", price := 829/100, imageUrl := "",
    stockQuantity := 5, isAvailable := true }

/-- Shop state for the paise-conversion counterexample. -/
def c9shop : ShopState :=
  { products := [c9product], coupons := [], orders := [], payments := [],
    nextOrderKey := 0 }

/-- Cart holding one unit of the 8.29-rupee product. -/
def c9req : CreateReq :=
  { items := [{ productId := 1, quantity := 1 }], couponCode := "" }

/-- OrderItem snapshot produced by checking out two units of exProduct. -/
def c7wItem : OrderItemRec :=
  { productId := some 1, productName := "prodA", productPrice := 100,
    productImage := "", quantity := 2, subtotal := 200 }

/-- Order row produced by checking out exReq against exShop with gateway id rz. -/
def c7wOrder : OrderRow :=
  { key := 0, orderId := "ORD0", status := "PENDING", paymentStatus := "PENDING",
    totalAmount := 200, discountAmount := 0, couponCode := "",
    razorpayOrderId := some "rz", items := [c7wItem] }

/-- Raw endpoint request that tries to smuggle a coupon_code field past the
serializer. -/
def exRaw : RawCreateRequest :=
  { fields := [("customer_name", "A"), ("coupon_code", "HACK")],
    items := [{ productId := 1, quantity := 2 }] }

/-! ## Helper lemmas: binary64 evaluation at the failing input 8.29 -/

/-- Nearest binary64 value of the decimal 8.29 (one ulp below it). -/
theorem fl64_829 : fl64 ((829:ℚ)/100) = 4666855113862676/562949953421312 := by
  have hlog : Int.log 2 ((829:ℚ)/100) = 3 := by
    rw [Int.log_of_one_le_right _ (by norm_num)]
    have h8 : ⌊(829:ℚ)/100⌋₊ = 8 := by
      rw [Nat.floor_eq_iff (by norm_num)]
      norm_num
    rw [h8]
    have hl : Nat.log 2 8 = 3 := by
      apply Nat.log_eq_of_pow_le_of_lt_pow <;> norm_num
    rw [hl]
    norm_num
  rw [fl64, if_neg (by norm_num), if_neg (by norm_num), fl64pos]
  simp only [hlog]
  have hsc : ((829:ℚ)/100 * 2 ^ ((52:ℤ) - 3) = 466685511386267648/100) := by norm_num
  rw [hsc]
  have hrn : rnInt ((466685511386267648:ℚ)/100) = 4666855113862676 := by
    rw [rnInt]
    have hf : ⌊(466685511386267648:ℚ)/100⌋ = 4666855113862676 := by
      rw [Int.floor_eq_iff]
      norm_num
    simp only [hf]
    rw [if_pos (by norm_num)]
  rw [hrn]
  have hz : ((2:ℚ) ^ ((3:ℤ) - 52) = 1/562949953421312) := by norm_num
  rw [hz]
  norm_num

/-- Binary64 product of that value with 100 (one quarter ulp below 829). -/
theorem fl64_829_times_100 :
    fl64 ((4666855113862676:ℚ)/562949953421312 * 100) = 7291961115410431/8796093022208 := by
  have harg : ((4666855113862676:ℚ)/562949953421312 * 100
      = 466685511386267600/562949953421312) := by norm_num
  rw [harg]
  have hlog : Int.log 2 ((466685511386267600:ℚ)/562949953421312) = 9 := by
    rw [Int.log_of_one_le_right _ (by norm_num)]
    have h828 : ⌊(466685511386267600:ℚ)/562949953421312⌋₊ = 828 := by
      rw [Nat.floor_eq_iff (by norm_num)]
      norm_num
    rw [h828]
    have hl : Nat.log 2 828 = 9 := by
      apply Nat.log_eq_of_pow_le_of_lt_pow <;> norm_num
    rw [hl]
    norm_num
  rw [fl64, if_neg (by norm_num), if_neg (by norm_num), fl64pos]
  simp only [hlog]
  have hsc : ((466685511386267600:ℚ)/562949953421312 * 2 ^ ((52:ℤ) - 9)
      = 29167844461641725/4) := by norm_num
  rw [hsc]
  have hrn : rnInt ((29167844461641725:ℚ)/4) = 7291961115410431 := by
    rw [rnInt]
    have hf : ⌊(29167844461641725:ℚ)/4⌋ = 7291961115410431 := by
      rw [Int.floor_eq_iff]
      norm_num
    simp only [hf]
    rw [if_pos (by norm_num)]
  rw [hrn]
  have hz : ((2:ℚ) ^ ((9:ℤ) - 52) = 1/8796093022208) := by norm_num
  rw [hz]
  norm_num

/-- Paise amount actually sent for a total of 8.29 rupees: 828, not 829. -/
theorem amount_paise_829 : amount_paise ((829:ℚ)/100) = 828 := by
  rw [amount_paise, fl64_829, fl64_829_times_100, pyTrunc, if_pos (by norm_num)]
  rw [Int.floor_eq_iff]
  norm_num

/-- C9. The spec claims all checkout currency arithmetic is exact decimal
arithmetic and the gateway receives exactly total_amount times 100 paise.
The code converts the Decimal total through a Python float
(views.py line 464, razorpay_service.py line 66: int(float(total) * 100)),
and at total_amount 8.29 the float round-trip yields 828 paise although
8.29 times 100 is exactly 829: the gateway is asked for one paisa less than
the order total. The endpoint-level conjunct shows a checkout of one
8.29-rupee product answering amount 828. -/
theorem c9_paise_float_bug :
    amount_paise ((829:ℚ)/100) = 828 ∧ ((829:ℚ)/100) * 100 = 829 ∧
    (create_order 0 (.ok "rzX") c9shop c9req).1 =
      .created { orderId := "ORD0", razorpayOrderId := "rzX",
                 amountPaise := 828, currency := "INR" } := by
  refine ⟨amount_paise_829, by norm_num, ?_⟩
  have hbi : buildItems c9shop.products c9req.items = .ok (829/100, [
      { productId := some 1, productName := "cableTag", productPrice := 829/100,
        productImage := "", quantity := 1, subtotal := 829/100 }]) := by
    simp [buildItems, findProduct, c9shop, c9req, c9product]
  have hcode : pyUpper (pyStrip c9req.couponCode) = "" := rfl
  rw [create_order, hbi]
  simp [hcode, applyCoupon, finishOrder, mkOrderId, c9shop, amount_paise_829]
  rfl

/-! ## Helper lemmas: verify and webhook characterizations -/

/-- Response of the verify endpoint on a signature match. -/
theorem verify_success_eq (hm : String → String → String) (ks : String) (st : RecState)
    (oid pid sig : String)
    (h1 : oid ≠ "") (h2 : pid ≠ "") (h3 : sig ≠ "")
    (h4 : st.order.razorpayOrderId = oid) (h5 : ks ≠ "")
    (h6 : hm ks (oid ++ "|" ++ pid) = sig) :
    verify_payment_simple hm ks st oid pid sig =
      ⟨200, true,
        { st with
          order := { st.order with
            status := "PAID", paymentStatus := "CAPTURED", razorpayPaymentId := some pid },
          emailsSent := st.emailsSent + 1 }⟩ := by
  have hsig : verify_signature hm ks oid pid sig = some true := by
    rw [verify_signature, if_neg h5]
    simp [h6]
  rw [verify_payment_simple, if_neg (by simp [h1, h2, h3]), if_neg (by simp [h4]), hsig]

/-- Response of the verify endpoint on a signature mismatch for a known order. -/
theorem verify_mismatch_eq (hm : String → String → String) (ks : String) (st : RecState)
    (oid pid sig : String)
    (h1 : oid ≠ "") (h2 : pid ≠ "") (h3 : sig ≠ "")
    (h4 : st.order.razorpayOrderId = oid) (h5 : ks ≠ "")
    (h6 : hm ks (oid ++ "|" ++ pid) ≠ sig) :
    verify_payment_simple hm ks st oid pid sig =
      ⟨400, false,
        { st with order := { st.order with status := "FAILED", paymentStatus := "FAILED" } }⟩ := by
  have hsig : verify_signature hm ks oid pid sig = some false := by
    rw [verify_signature, if_neg h5]
    simp [h6]
  rw [verify_payment_simple, if_neg (by simp [h1, h2, h3]), if_neg (by simp [h4]), hsig]

/-- Response of the webhook on a signature-valid payment.captured event for a
known order that is not yet confirmed-and-beyond. -/
theorem webhook_captured_eq (hm : String → String → String)
    (parse : String → Option WebhookEvent) (ws : String) (st : RecState)
    (body sig : String) (ev : WebhookEvent) (ent : WebhookEntity)
    (hsig : verify_webhook_signature hm ws body sig = true)
    (hp : parse body = some ev) (hev : ev.event = "payment.captured")
    (hent : ev.entity = some ent) (hmatch : ent.orderId = st.order.razorpayOrderId)
    (hst : confirmedAndBeyond st.order.status = false) :
    razorpay_webhook hm parse ws st "POST" body sig =
      (200,
        { st with
          order := { st.order with status := "CONFIRMED", paymentStatus := "PAID" },
          payment := st.payment.map (fun pm =>
            { pm with status := "CAPTURED", razorpayPaymentId := some ent.paymentId }) }) := by
  rw [razorpay_webhook, if_neg (by simp), if_neg (by simp [hsig]), hp]
  simp only [if_pos hev, hent, if_pos hmatch, hst]
  simp

/-- Response of the webhook on a signature-valid payment.failed event for a
known order that is not yet confirmed-and-beyond. -/
theorem webhook_failed_eq (hm : String → String → String)
    (parse : String → Option WebhookEvent) (ws : String) (st : RecState)
    (body sig : String) (ev : WebhookEvent) (ent : WebhookEntity)
    (hsig : verify_webhook_signature hm ws body sig = true)
    (hp : parse body = some ev) (hev : ev.event = "payment.failed")
    (hent : ev.entity = some ent) (hmatch : ent.orderId = st.order.razorpayOrderId)
    (hst : confirmedAndBeyond st.order.status = false) :
    razorpay_webhook hm parse ws st "POST" body sig =
      (200,
        { st with
          order := { st.order with status := "FAILED", paymentStatus := "FAILED" },
          payment := st.payment.map (fun pm => { pm with status := "FAILED" }) }) := by
  have hne : ev.event ≠ "payment.captured" := by
    rw [hev]
    decide
  rw [razorpay_webhook, if_neg (by simp), if_neg (by simp [hsig]), hp]
  simp only [if_neg hne, if_pos hev, hent, if_pos hmatch, hst]
  simp

/-! ## Claim C1 -/

/-- C1 counterexample. Delivering the same valid capture event twice through
the verify endpoint dispatches two confirmation notifications, not exactly
one; stock is never decremented at all (it stays at 5 although the claim
requires exactly one decrement); and delivering the event once through each
trigger is order-dependent: webhook after verify leaves the order CONFIRMED
while verify after webhook leaves it PAID. -/
theorem c1_capture_redelivery_cex :
    (verify_payment_simple hmEx "k"
        (verify_payment_simple hmEx "k" exState "rz1" "pay1" "k#rz1|pay1").state
        "rz1" "pay1" "k#rz1|pay1").state.emailsSent = 2 ∧
    (2:ℕ) ≠ 1 ∧
    (verify_payment_simple hmEx "k"
        (verify_payment_simple hmEx "k" exState "rz1" "pay1" "k#rz1|pay1").state
        "rz1" "pay1" "k#rz1|pay1").state.stocks = [("prodA", 5)] ∧
    exState.stocks = [("prodA", 5)] ∧
    (razorpay_webhook hmEx parseCaptured "w"
        (verify_payment_simple hmEx "k" exState "rz1" "pay1" "k#rz1|pay1").state
        "POST" "B" "w#B").2.order.status = "CONFIRMED" ∧
    (verify_payment_simple hmEx "k"
        (razorpay_webhook hmEx parseCaptured "w" exState "POST" "B" "w#B").2
        "rz1" "pay1" "k#rz1|pay1").state.order.status = "PAID" ∧
    "CONFIRMED" ≠ "PAID" := by
  simp [verify_payment_simple, verify_signature, razorpay_webhook,
    verify_webhook_signature, confirmedAndBeyond, parseCaptured, hmEx,
    exState, exOrder, exPayment]

/-- C1 (amended): redelivering the same valid capture event through the
verify endpoint is idempotent on the Order and Payment rows (status PAID and
HTTP 200 both times, identical order row after the second call), and no
stock is ever decremented by the capture path; but a confirmation
notification is dispatched on every delivery, so two deliveries dispatch
two notifications instead of one. (Cross-trigger redelivery is settled by
the counterexample: the two triggers do not commute.) -/
theorem c1_verify_redelivery (hm : String → String → String) (ks : String)
    (st : RecState) (oid pid sig : String)
    (h1 : oid ≠ "") (h2 : pid ≠ "") (h3 : sig ≠ "")
    (h4 : st.order.razorpayOrderId = oid) (h5 : ks ≠ "")
    (h6 : hm ks (oid ++ "|" ++ pid) = sig) :
    (verify_payment_simple hm ks st oid pid sig).httpStatus = 200 ∧
    (verify_payment_simple hm ks st oid pid sig).state.order.status = "PAID" ∧
    (verify_payment_simple hm ks st oid pid sig).state.payment = st.payment ∧
    (verify_payment_simple hm ks st oid pid sig).state.stocks = st.stocks ∧
    (verify_payment_simple hm ks st oid pid sig).state.emailsSent = st.emailsSent + 1 ∧
    (verify_payment_simple hm ks
        (verify_payment_simple hm ks st oid pid sig).state oid pid sig).httpStatus = 200 ∧
    (verify_payment_simple hm ks
        (verify_payment_simple hm ks st oid pid sig).state oid pid sig).state.order =
      (verify_payment_simple hm ks st oid pid sig).state.order ∧
    (verify_payment_simple hm ks
        (verify_payment_simple hm ks st oid pid sig).state oid pid sig).state.payment =
      st.payment ∧
    (verify_payment_simple hm ks
        (verify_payment_simple hm ks st oid pid sig).state oid pid sig).state.stocks =
      st.stocks ∧
    (verify_payment_simple hm ks
        (verify_payment_simple hm ks st oid pid sig).state oid pid sig).state.emailsSent =
      st.emailsSent + 2 := by
  have e1 := verify_success_eq hm ks st oid pid sig h1 h2 h3 h4 h5 h6
  have h4' : (verify_payment_simple hm ks st oid pid sig).state.order.razorpayOrderId = oid := by
    rw [e1]
    exact h4
  have e2 := verify_success_eq hm ks (verify_payment_simple hm ks st oid pid sig).state
    oid pid sig h1 h2 h3 h4' h5 h6
  rw [e2, e1]
  simp

/-- C1 witness: the amended theorem applied at the concrete PENDING state. -/
theorem c1_verify_redelivery_witness :
    (verify_payment_simple hmEx "k" exState "rz1" "pay1" "k#rz1|pay1").httpStatus = 200 ∧
    (verify_payment_simple hmEx "k"
        (verify_payment_simple hmEx "k" exState "rz1" "pay1" "k#rz1|pay1").state
        "rz1" "pay1" "k#rz1|pay1").state.emailsSent = exState.emailsSent + 2 := by
  have h := c1_verify_redelivery hmEx "k" exState "rz1" "pay1" "k#rz1|pay1"
    (by decide) (by decide) (by decide) rfl (by decide) rfl
  exact ⟨h.1, h.2.2.2.2.2.2.2.2.2⟩

/-! ## Claim C2 -/

/-- C2 counterexample. The two triggers do not produce the state the claim
specifies: the webhook capture path sets the order to CONFIRMED with
payment_status PAID (not PAID with CAPTURED), and the verify path leaves
the Payment row at CREATED (not CAPTURED); neither path touches stock even
though stock (5) is greater than the ordered quantity. -/
theorem c2_capture_shape_cex :
    (razorpay_webhook hmEx parseCaptured "w" exState "POST" "B" "w#B").2.order.status =
      "CONFIRMED" ∧
    "CONFIRMED" ≠ "PAID" ∧
    (razorpay_webhook hmEx parseCaptured "w" exState "POST" "B" "w#B").2.order.paymentStatus =
      "PAID" ∧
    "PAID" ≠ "CAPTURED" ∧
    (verify_payment_simple hmEx "k" exState "rz1" "pay1" "k#rz1|pay1").state.payment =
      some exPayment ∧
    exPayment.status = "CREATED" ∧
    "CREATED" ≠ "CAPTURED" ∧
    (verify_payment_simple hmEx "k" exState "rz1" "pay1" "k#rz1|pay1").state.stocks =
      exState.stocks := by
  simp [verify_payment_simple, verify_signature, razorpay_webhook,
    verify_webhook_signature, confirmedAndBeyond, parseCaptured, hmEx,
    exState, exOrder, exPayment]

/-- C2 (amended): a capture event produces trigger-dependent states. The
verify trigger (valid signature, known order, any current status) sets the
Order to PAID with payment_status CAPTURED and records the payment id, but
leaves the Payment row and the stock table unchanged. The webhook trigger
(valid whole-body signature, known order not yet confirmed-and-beyond) sets
the Order to CONFIRMED with payment_status PAID and sets the Payment row to
CAPTURED with the payment id. No stock decrement happens on either path. -/
theorem c2_capture_paths (hm : String → String → String) (st : RecState) :
    (∀ ks oid pid sig, oid ≠ "" → pid ≠ "" → sig ≠ "" →
        st.order.razorpayOrderId = oid → ks ≠ "" → hm ks (oid ++ "|" ++ pid) = sig →
        verify_payment_simple hm ks st oid pid sig =
          ⟨200, true,
            { st with
              order := { st.order with
                status := "PAID", paymentStatus := "CAPTURED",
                razorpayPaymentId := some pid },
              emailsSent := st.emailsSent + 1 }⟩) ∧
    (∀ (parse : String → Option WebhookEvent) ws body sig ev ent,
        verify_webhook_signature hm ws body sig = true → parse body = some ev →
        ev.event = "payment.captured" → ev.entity = some ent →
        ent.orderId = st.order.razorpayOrderId →
        confirmedAndBeyond st.order.status = false →
        razorpay_webhook hm parse ws st "POST" body sig =
          (200,
            { st with
              order := { st.order with status := "CONFIRMED", paymentStatus := "PAID" },
              payment := st.payment.map (fun pm =>
                { pm with status := "CAPTURED", razorpayPaymentId := some ent.paymentId }) })) := by
  constructor
  · intro ks oid pid sig h1 h2 h3 h4 h5 h6
    exact verify_success_eq hm ks st oid pid sig h1 h2 h3 h4 h5 h6
  · intro parse ws body sig ev ent hsig hp hev hent hmatch hst
    exact webhook_captured_eq hm parse ws st body sig ev ent hsig hp hev hent hmatch hst

/-- C2 witness: both capture paths evaluated at the concrete PENDING state. -/
theorem c2_capture_paths_witness :
    verify_payment_simple hmEx "k" exState "rz1" "pay1" "k#rz1|pay1" =
      ⟨200, true,
        { exState with
          order := { exState.order with
            status := "PAID", paymentStatus := "CAPTURED",
            razorpayPaymentId := some "pay1" },
          emailsSent := exState.emailsSent + 1 }⟩ ∧
    razorpay_webhook hmEx parseCaptured "w" exState "POST" "B" "w#B" =
      (200,
        { exState with
          order := { exState.order with status := "CONFIRMED", paymentStatus := "PAID" },
          payment := exState.payment.map (fun pm =>
            { pm with status := "CAPTURED", razorpayPaymentId := some "pay1" }) }) := by
  have h := c2_capture_paths hmEx exState
  exact ⟨h.1 "k" "rz1" "pay1" "k#rz1|pay1" (by decide) (by decide) (by decide) rfl
      (by decide) rfl,
    h.2 parseCaptured "w" "B" "w#B" exCapturedEvent exEntity
      (by decide) rfl rfl rfl rfl (by decide)⟩

/-! ## Claim C3 -/

/-- C3 counterexample. A signature mismatch for a known order flips the
Order row to FAILED but leaves the Payment row untouched at CREATED, so the
Payment entity is not transitioned to FAILED as the claim states. -/
theorem c3_payment_row_cex :
    (verify_payment_simple hmEx "k" exState "rz1" "pay1" "BAD").state.order.status =
      "FAILED" ∧
    (verify_payment_simple hmEx "k" exState "rz1" "pay1" "BAD").state.payment =
      some exPayment ∧
    exPayment.status = "CREATED" ∧
    "CREATED" ≠ "FAILED" := by
  simp [verify_payment_simple, verify_signature, hmEx, exState, exOrder, exPayment]

/-- C3 (amended): a verify request whose signature does not match the keyed
digest of gateway_order_id|gateway_payment_id, for an existing order, sets
Order.status and Order.payment_status to FAILED and reports a 400
verification failure, never PAID; the Payment row itself is left unchanged. -/
theorem c3_signature_mismatch (hm : String → String → String) (ks : String)
    (st : RecState) (oid pid sig : String)
    (h1 : oid ≠ "") (h2 : pid ≠ "") (h3 : sig ≠ "")
    (h4 : st.order.razorpayOrderId = oid) (h5 : ks ≠ "")
    (h6 : hm ks (oid ++ "|" ++ pid) ≠ sig) :
    verify_payment_simple hm ks st oid pid sig =
      ⟨400, false,
        { st with order := { st.order with status := "FAILED", paymentStatus := "FAILED" } }⟩ ∧
    (verify_payment_simple hm ks st oid pid sig).state.order.status ≠ "PAID" ∧
    (verify_payment_simple hm ks st oid pid sig).state.payment = st.payment := by
  have e := verify_mismatch_eq hm ks st oid pid sig h1 h2 h3 h4 h5 h6
  refine ⟨e, ?_, ?_⟩
  · rw [e]
    simp
  · rw [e]

/-- C3 witness: mismatch behaviour at the concrete PENDING state. -/
theorem c3_signature_mismatch_witness :
    verify_payment_simple hmEx "k" exState "rz1" "pay1" "BAD" =
      ⟨400, false,
        { exState with
          order := { exState.order with status := "FAILED", paymentStatus := "FAILED" } }⟩ ∧
    (verify_payment_simple hmEx "k" exState "rz1" "pay1" "BAD").state.order.status ≠ "PAID" := by
  have h := c3_signature_mismatch hmEx "k" exState "rz1" "pay1" "BAD"
    (by decide) (by decide) (by decide) rfl (by decide) (by decide)
  exact ⟨h.1, h.2.1⟩

/-! ## Claim C4 -/

/-- C4 counterexample. The payment-failure report endpoint has no
confirmed-and-beyond guard: reporting a failure for an order that already
reached CONFIRMED downgrades it to FAILED. -/
theorem c4_failure_report_cex :
    exConfirmedState.order.status = "CONFIRMED" ∧
    (payment_failed exConfirmedState "ORD1" "declined").2.order.status = "FAILED" ∧
    "FAILED" ≠ "CONFIRMED" := by
  simp [payment_failed, exConfirmedState, exState, exOrder]

/-- C4 (amended): only the webhook failure path respects the terminal
states: a signature-valid payment.failed webhook for an order whose status
is CONFIRMED, SHIPPED or DELIVERED leaves the state untouched (whether or
not the payload names this order). The payment-failure report endpoint,
however, unconditionally sets the order to FAILED/FAILED, even for such an
order. -/
theorem c4_late_failure (st : RecState) (h : confirmedAndBeyond st.order.status = true) :
    (∀ (hm : String → String → String) (parse : String → Option WebhookEvent)
        (ws body sig : String) (ev : WebhookEvent) (ent : WebhookEntity),
        verify_webhook_signature hm ws body sig = true → parse body = some ev →
        ev.event = "payment.failed" → ev.entity = some ent →
        razorpay_webhook hm parse ws st "POST" body sig = (200, st)) ∧
    (∀ errDesc,
        (payment_failed st st.order.orderId errDesc).2.order.status = "FAILED" ∧
        (payment_failed st st.order.orderId errDesc).2.order.paymentStatus = "FAILED") := by
  constructor
  · intro hm parse ws body sig ev ent hsig hp hev hent
    have hne : ev.event ≠ "payment.captured" := by
      rw [hev]
      decide
    rw [razorpay_webhook, if_neg (by simp), if_neg (by simp [hsig]), hp]
    simp only [if_neg hne, if_pos hev, hent]
    by_cases hmatch : ent.orderId = st.order.razorpayOrderId
    · simp [hmatch, h]
    · simp [hmatch]
  · intro errDesc
    rw [payment_failed, if_pos rfl]
    simp

/-- C4 witness: both failure triggers evaluated at the CONFIRMED state. -/
theorem c4_late_failure_witness :
    razorpay_webhook hmEx parseFailed "w" exConfirmedState "POST" "B" "w#B" =
      (200, exConfirmedState) ∧
    (payment_failed exConfirmedState exConfirmedState.order.orderId "declined").2.order.status =
      "FAILED" := by
  have h := c4_late_failure exConfirmedState (by decide)
  exact ⟨h.1 hmEx parseFailed "w" "B" "w#B" exFailedEvent exEntity
      (by decide) rfl rfl rfl,
    (h.2 "declined").1⟩

/-! ## Claim C5 -/

/-- C5 counterexample. A webhook whose signature verifies and whose body is
the valid JSON object containing only the event name payment.captured (no
payload.payment.entity object) makes the handler raise KeyError, answering
500, not 200. -/
theorem c5_webhook_500_cex :
    verify_webhook_signature hmEx "w" "B2" "w#B2" = true ∧
    (parseCapturedNoEntity "B2").isSome = true ∧
    (razorpay_webhook hmEx parseCapturedNoEntity "w" exState "POST" "B2" "w#B2").1 = 500 ∧
    (500:ℕ) ≠ 200 := by
  simp [razorpay_webhook, verify_webhook_signature, parseCapturedNoEntity, hmEx,
    confirmedAndBeyond, exState, exOrder]

/-- C5 (amended): an invalid whole-body signature is rejected with 400 and
no state change, independently of the parser (the payload is never parsed);
a signature-valid request whose body fails JSON parsing gets 400 with no
state change; once the signature verifies and the body parses, the endpoint
answers 200 for every business outcome (unknown event, unknown order, or
transition applied) — except that a payment.captured or payment.failed body
lacking the payload.payment.entity object raises KeyError and answers 500
with no state change. -/
theorem c5_webhook_contract (hm : String → String → String) (ws : String)
    (st : RecState) (body sig : String) :
    (∀ parse : String → Option WebhookEvent,
        verify_webhook_signature hm ws body sig = false →
        razorpay_webhook hm parse ws st "POST" body sig = (400, st)) ∧
    (∀ parse : String → Option WebhookEvent,
        verify_webhook_signature hm ws body sig = true → parse body = none →
        razorpay_webhook hm parse ws st "POST" body sig = (400, st)) ∧
    (∀ (parse : String → Option WebhookEvent) (ev : WebhookEvent),
        verify_webhook_signature hm ws body sig = true → parse body = some ev →
        (ev.event = "payment.captured" ∨ ev.event = "payment.failed") → ev.entity = none →
        razorpay_webhook hm parse ws st "POST" body sig = (500, st)) ∧
    (∀ (parse : String → Option WebhookEvent) (ev : WebhookEvent) (ent : WebhookEntity),
        verify_webhook_signature hm ws body sig = true → parse body = some ev →
        ev.entity = some ent →
        (razorpay_webhook hm parse ws st "POST" body sig).1 = 200) ∧
    (∀ (parse : String → Option WebhookEvent) (ev : WebhookEvent),
        verify_webhook_signature hm ws body sig = true → parse body = some ev →
        ev.event ≠ "payment.captured" → ev.event ≠ "payment.failed" →
        razorpay_webhook hm parse ws st "POST" body sig = (200, st)) := by
  refine ⟨?_, ?_, ?_, ?_, ?_⟩
  · intro parse hbad
    rw [razorpay_webhook, if_neg (by simp)]
    simp [hbad]
  · intro parse hsig hp
    rw [razorpay_webhook, if_neg (by simp), if_neg (by simp [hsig]), hp]
  · intro parse ev hsig hp hev hent
    rw [razorpay_webhook, if_neg (by simp), if_neg (by simp [hsig]), hp]
    rcases hev with hev | hev
    · simp only [if_pos hev, hent]
    · have hne : ev.event ≠ "payment.captured" := by
        rw [hev]
        decide
      simp only [if_neg hne, if_pos hev, hent]
  · intro parse ev ent hsig hp hent
    rw [razorpay_webhook, if_neg (by simp), if_neg (by simp [hsig]), hp]
    by_cases hc : ev.event = "payment.captured"
    · simp only [if_pos hc, hent]
      by_cases hmatch : ent.orderId = st.order.razorpayOrderId
      · by_cases hcb : confirmedAndBeyond st.order.status
        · simp [hmatch, hcb]
        · simp [hmatch, hcb]
      · simp [hmatch]
    · simp only [if_neg hc]
      by_cases hf : ev.event = "payment.failed"
      · simp only [if_pos hf, hent]
        by_cases hmatch : ent.orderId = st.order.razorpayOrderId
        · by_cases hcb : confirmedAndBeyond st.order.status
          · simp [hmatch, hcb]
          · simp [hmatch, hcb]
        · simp [hmatch]
      · simp [hc, hf]
  · intro parse ev hsig hp hc hf
    rw [razorpay_webhook, if_neg (by simp), if_neg (by simp [hsig]), hp]
    simp [hc, hf]

/-- C5 witness: the contract evaluated at concrete requests — a
bad-signature request is rejected unchanged, and a well-formed captured
event is answered with 200. -/
theorem c5_webhook_contract_witness :
    razorpay_webhook hmEx parseCaptured "w" exState "POST" "B" "BADSIG" = (400, exState) ∧
    (razorpay_webhook hmEx parseCaptured "w" exState "POST" "B" "w#B").1 = 200 := by
  have h := c5_webhook_contract hmEx "w" exState "B" "BADSIG"
  have h2 := c5_webhook_contract hmEx "w" exState "B" "w#B"
  exact ⟨h.1 parseCaptured (by decide),
    h2.2.2.2.1 parseCaptured exCapturedEvent exEntity (by decide) rfl rfl⟩

/-! ## Helper lemmas: checkout -/

/-- Products found by the catalog lookup belong to the catalog. -/
theorem findProduct_mem (products : List Product) (pid : ℕ) (p : Product)
    (h : findProduct products pid = some p) : p ∈ products :=
  List.mem_of_find?_eq_some h

/-- Cart validation: on success the returned total is the sum of the
subtotal snapshots, it is nonnegative when catalog prices are, and every
snapshot satisfies subtotal = unit price times quantity. -/
theorem buildItems_ok_spec (ps : List Product) (hps : ∀ p ∈ ps, 0 ≤ p.price)
    (its : List ReqItem) :
    ∀ (t : ℚ) (os : List OrderItemRec), buildItems ps its = .ok (t, os) →
      t = sumSubtotals os ∧ 0 ≤ t ∧
      ∀ o ∈ os, o.subtotal = o.productPrice * (o.quantity : ℚ) := by
  induction its with
  | nil =>
    intro t os h
    simp only [buildItems, Except.ok.injEq, Prod.mk.injEq] at h
    obtain ⟨ht, hos⟩ := h
    subst ht
    subst hos
    refine ⟨rfl, le_refl 0, ?_⟩
    intro o ho
    cases ho
  | cons it rest ih =>
    intro t os h
    rw [buildItems] at h
    split at h
    · cases h
    · rename_i p hfp
      split at h
      · cases h
      · split at h
        · cases h
        · rename_i hst hok t' os' hbi
          simp only [Except.ok.injEq, Prod.mk.injEq] at h
          obtain ⟨ht, hos⟩ := h
          obtain ⟨iht, ihnn, ihmem⟩ := ih t' os' hbi
          have hp0 : 0 ≤ p.price := hps p (findProduct_mem ps it.productId p hfp)
          have hsub : (0:ℚ) ≤ p.price * (it.quantity : ℚ) :=
            mul_nonneg hp0 (Nat.cast_nonneg _)
          subst ht
          subst hos
          refine ⟨?_, ?_, ?_⟩
          · rw [sumSubtotals, List.map_cons, List.sum_cons, ← sumSubtotals, iht]
          · exact add_nonneg hsub ihnn
          · intro o ho
            rcases List.mem_cons.mp ho with rfl | ho'
            · rfl
            · exact ihmem o ho'

/-- Coupon application with an empty normalized code is the identity. -/
theorem applyCoupon_empty (cs : List Coupon) (today : ℕ) (t0 : ℚ) :
    applyCoupon cs today "" t0 = (none, 0, t0) := by
  rw [applyCoupon, if_pos rfl]

/-- Coupon application leaves the total equal to the clamped difference of
the incoming total and the discount it reports. -/
theorem applyCoupon_total (cs : List Coupon) (today : ℕ) (code : String) (t0 : ℚ)
    (h0 : 0 ≤ t0) :
    (applyCoupon cs today code t0).2.2 =
      max 0 (t0 - (applyCoupon cs today code t0).2.1) := by
  rw [applyCoupon]
  by_cases hc : code = ""
  · rw [if_pos hc]
    simp [max_eq_right h0]
  · rw [if_neg hc]
    split
    · simp [max_eq_right h0]
    · split
      · rfl
      · simp [max_eq_right h0]

/-- Coupon application only reports a coupon that is stored and passed the
revalidation. -/
theorem applyCoupon_some_inv (cs : List Coupon) (today : ℕ) (code : String) (t0 : ℚ)
    (c : Coupon) (h : (applyCoupon cs today code t0).1 = some c) :
    c ∈ cs ∧ couponValidCheck c today t0 = true := by
  rw [applyCoupon] at h
  by_cases hc : code = ""
  · rw [if_pos hc] at h
    cases h
  · rw [if_neg hc] at h
    split at h
    · cases h
    · rename_i c' hf
      split at h
      · rename_i hv
        obtain rfl : c' = c := by
          simpa using h
        exact ⟨List.mem_of_find?_eq_some hf, hv⟩
      · cases h

/-- Filtering out a key above every stored key removes nothing. -/
theorem filter_fresh_keys (l : List OrderRow) (k : ℕ) (h : ∀ o ∈ l, o.key < k) :
    l.filter (fun o => o.key ≠ k) = l := by
  rw [List.filter_eq_self]
  intro o ho
  simpa using Nat.ne_of_lt (h o ho)

/-- In a list of coupons with pairwise distinct keys, equal keys force equal
elements. -/
theorem coupon_key_unique (l : List Coupon)
    (hl : l.Pairwise (fun a b => a.key ≠ b.key)) :
    ∀ x ∈ l, ∀ y ∈ l, x.key = y.key → x = y := by
  induction l with
  | nil =>
    intro x hx
    cases hx
  | cons a rest ih =>
    rw [List.pairwise_cons] at hl
    obtain ⟨ha, hrest⟩ := hl
    intro x hx y hy hxy
    rcases List.mem_cons.mp hx with rfl | hx'
    · rcases List.mem_cons.mp hy with rfl | hy'
      · rfl
      · exact absurd hxy (ha y hy')
    · rcases List.mem_cons.mp hy with rfl | hy'
      · exact absurd hxy.symm (ha x hx')
      · exact ih hrest x hx' y hy' hxy

/-- Step lemma: the coupon bump never touches orders or payments. -/
theorem bumpCouponStep_orders (st : ShopState) (a : Option Coupon) :
    (bumpCouponStep st a).orders = st.orders ∧
    (bumpCouponStep st a).payments = st.payments := by
  cases a <;> exact ⟨rfl, rfl⟩

/-- Result and state of finishOrder when the gateway call fails: the fresh
order row is deleted again, payments are untouched, and a
gateway-unavailable error is reported. -/
theorem finishOrder_gwfail (gw : GatewayOutcome) (st : ShopState)
    (applied : Option Coupon) (discount total : ℚ) (items : List OrderItemRec)
    (hfresh : ordersFresh st) (hgw : gw = .configError ∨ gw = .apiError) :
    (finishOrder gw st applied discount total items).2.orders = st.orders ∧
    (finishOrder gw st applied discount total items).2.payments = st.payments ∧
    (finishOrder gw st applied discount total items).1 =
      .gatewayUnavailable (gw = GatewayOutcome.configError) := by
  have horders : ∀ o : OrderRow,
      ((st.orders ++ [o]).filter (fun x => x.key ≠ st.nextOrderKey)) = st.orders ∨ True :=
    fun _ => Or.inr trivial
  rcases hgw with rfl | rfl <;>
    · simp only [finishOrder]
      cases applied with
      | none =>
        refine ⟨?_, rfl, by simp⟩
        simp only [deleteOrderStep, bumpCouponStep, insertOrderStep, List.filter_append]
        rw [filter_fresh_keys st.orders st.nextOrderKey hfresh]
        simp
      | some c =>
        refine ⟨?_, rfl, by simp⟩
        simp only [deleteOrderStep, bumpCouponStep, insertOrderStep, List.filter_append]
        rw [filter_fresh_keys st.orders st.nextOrderKey hfresh]
        simp

/-- Result of finishOrder on gateway success. -/
theorem finishOrder_ok_resp (st : ShopState) (applied : Option Coupon)
    (discount total : ℚ) (items : List OrderItemRec) (rzId : String) :
    (finishOrder (.ok rzId) st applied discount total items).1 =
      .created { orderId := mkOrderId st.nextOrderKey, razorpayOrderId := rzId,
                 amountPaise := amount_paise total, currency := "INR" } := rfl

/-- On gateway success the final ledger holds the new order row with the
computed totals, the coupon code snapshot and the recorded gateway id. -/
theorem finishOrder_ok_mem (st : ShopState) (applied : Option Coupon)
    (discount total : ℚ) (items : List OrderItemRec) (rzId : String) :
    ∃ o ∈ (finishOrder (.ok rzId) st applied discount total items).2.orders,
      o.orderId = mkOrderId st.nextOrderKey ∧ o.totalAmount = total ∧
      o.discountAmount = discount ∧ o.items = items ∧
      o.couponCode = (match applied with | some c => c.code | none => "") ∧
      o.razorpayOrderId = some rzId := by
  simp only [finishOrder]
  simp only [insertPaymentStep, setRzOrderIdStep]
  have hbump := bumpCouponStep_orders
    (insertOrderStep st
      { key := st.nextOrderKey, orderId := mkOrderId st.nextOrderKey,
        status := "PENDING", paymentStatus := "PENDING",
        totalAmount := total, discountAmount := discount,
        couponCode := (match applied with | some c => c.code | none => ""),
        razorpayOrderId := none, items := items }) applied
  rw [hbump.1]
  clear hbump
  simp only [insertOrderStep, List.map_append]
  refine ⟨{ key := st.nextOrderKey, orderId := mkOrderId st.nextOrderKey,
            status := "PENDING", paymentStatus := "PENDING", totalAmount := total,
            discountAmount := discount,
            couponCode := (match applied with | some c => c.code | none => ""),
            razorpayOrderId := some rzId, items := items }, ?_, ?_⟩
  · apply List.mem_append_right
    simp
  · simp

/-- Coupon table after finishOrder: unchanged unless a coupon was applied,
in which case the row with the snapshot key receives the snapshot value
plus one. -/
theorem finishOrder_coupons (gw : GatewayOutcome) (st : ShopState)
    (applied : Option Coupon) (discount total : ℚ) (items : List OrderItemRec) :
    (finishOrder gw st applied discount total items).2.coupons =
      (match applied with
       | none => st.coupons
       | some c => st.coupons.map (fun x =>
           if x.key = c.key then couponIncrementWrite x c.timesUsed else x)) := by
  cases gw <;> cases applied <;> rfl

/-- CreateOrderSerializer declares no coupon_code field, so the validated
data never yields one and the lookup falls back to the empty string. -/
theorem coupon_code_dropped (raw : List (String × String)) :
    dictGetD (serializerValidatedData raw) "coupon_code" "" = "" := by
  rw [dictGetD]
  have hnone : (serializerValidatedData raw).find? (fun kv => kv.1 == "coupon_code") = none := by
    rw [List.find?_eq_none]
    intro kv hkv
    simp only [serializerValidatedData] at hkv
    have hmem := List.mem_filter.mp hkv
    intro hp
    have hk : kv.1 = "coupon_code" := by simpa using hp
    have hcontains := hmem.2
    rw [hk] at hcontains
    exact absurd hcontains (by decide)
  rw [hnone]

/-! ## Claim C6 -/

/-- C6: create_order is atomic on failure. A stock or product validation
failure returns before any write, leaving the whole ledger untouched; a
gateway failure after the Order insert deletes the just-created Order (and
with it its items), leaving the order and payment tables as they were, and
surfaces a gateway-unavailable error whenever validation passed and the
gateway call failed. -/
theorem c6_create_order_atomic (today : ℕ) (gw : GatewayOutcome) (st : ShopState)
    (req : CreateReq) (hfresh : ordersFresh st) :
    (∀ m st2, create_order today gw st req = (.badRequest m, st2) → st2 = st) ∧
    (∀ m st2, create_order today gw st req = (.notFound m, st2) → st2 = st) ∧
    (∀ b st2, create_order today gw st req = (.gatewayUnavailable b, st2) →
        st2.orders = st.orders ∧ st2.payments = st.payments) ∧
    (∀ p, buildItems st.products req.items = .ok p →
        gw = .configError ∨ gw = .apiError →
        (create_order today gw st req).1 =
          .gatewayUnavailable (gw = GatewayOutcome.configError)) := by
  cases hbi : buildItems st.products req.items with
  | error e =>
    cases e with
    | insufficientStock n a =>
      have hco : create_order today gw st req =
          (.badRequest ("Insufficient stock for " ++ n), st) := by
        rw [create_order, hbi]
      refine ⟨?_, ?_, ?_, ?_⟩
      · intro m st2 heq
        rw [hco] at heq
        exact (Prod.mk.injEq _ _ _ _ ▸ heq).2.symm
      · intro m st2 heq
        rw [hco] at heq
        simp at heq
      · intro b st2 heq
        rw [hco] at heq
        simp at heq
      · intro p hp
        exact absurd hp (by simp)
    | productNotFound pid =>
      have hco : create_order today gw st req =
          (.notFound ("Product with ID " ++ toString pid ++ " not found"), st) := by
        rw [create_order, hbi]
      refine ⟨?_, ?_, ?_, ?_⟩
      · intro m st2 heq
        rw [hco] at heq
        simp at heq
      · intro m st2 heq
        rw [hco] at heq
        exact (Prod.mk.injEq _ _ _ _ ▸ heq).2.symm
      · intro b st2 heq
        rw [hco] at heq
        simp at heq
      · intro p hp
        exact absurd hp (by simp)
  | ok pr =>
    obtain ⟨t0, items⟩ := pr
    have hco : create_order today gw st req =
        finishOrder gw st
          (applyCoupon st.coupons today (pyUpper (pyStrip req.couponCode)) t0).1
          (applyCoupon st.coupons today (pyUpper (pyStrip req.couponCode)) t0).2.1
          (applyCoupon st.coupons today (pyUpper (pyStrip req.couponCode)) t0).2.2
          items := by
      rw [create_order, hbi]
    cases gw with
    | ok rzId =>
      refine ⟨?_, ?_, ?_, ?_⟩
      · intro m st2 heq
        rw [hco] at heq
        have := congrArg Prod.fst heq
        rw [finishOrder_ok_resp] at this
        simp at this
      · intro m st2 heq
        rw [hco] at heq
        have := congrArg Prod.fst heq
        rw [finishOrder_ok_resp] at this
        simp at this
      · intro b st2 heq
        rw [hco] at heq
        have := congrArg Prod.fst heq
        rw [finishOrder_ok_resp] at this
        simp at this
      · intro p hp hgw
        rcases hgw with hgw | hgw <;> cases hgw
    | configError =>
      have hfail := finishOrder_gwfail .configError st
        (applyCoupon st.coupons today (pyUpper (pyStrip req.couponCode)) t0).1
        (applyCoupon st.coupons today (pyUpper (pyStrip req.couponCode)) t0).2.1
        (applyCoupon st.coupons today (pyUpper (pyStrip req.couponCode)) t0).2.2
        items hfresh (Or.inl rfl)
      refine ⟨?_, ?_, ?_, ?_⟩
      · intro m st2 heq
        rw [hco] at heq
        have := congrArg Prod.fst heq
        rw [hfail.2.2] at this
        simp at this
      · intro m st2 heq
        rw [hco] at heq
        have := congrArg Prod.fst heq
        rw [hfail.2.2] at this
        simp at this
      · intro b st2 heq
        rw [hco] at heq
        have hsnd := congrArg Prod.snd heq
        have hsnd2 : _ = st2 := hsnd
        rw [← hsnd2]
        exact ⟨hfail.1, hfail.2.1⟩
      · intro p hp hgw
        rw [hco]
        exact hfail.2.2
    | apiError =>
      have hfail := finishOrder_gwfail .apiError st
        (applyCoupon st.coupons today (pyUpper (pyStrip req.couponCode)) t0).1
        (applyCoupon st.coupons today (pyUpper (pyStrip req.couponCode)) t0).2.1
        (applyCoupon st.coupons today (pyUpper (pyStrip req.couponCode)) t0).2.2
        items hfresh (Or.inr rfl)
      refine ⟨?_, ?_, ?_, ?_⟩
      · intro m st2 heq
        rw [hco] at heq
        have := congrArg Prod.fst heq
        rw [hfail.2.2] at this
        simp at this
      · intro m st2 heq
        rw [hco] at heq
        have := congrArg Prod.fst heq
        rw [hfail.2.2] at this
        simp at this
      · intro b st2 heq
        rw [hco] at heq
        have hsnd := congrArg Prod.snd heq
        have hsnd2 : _ = st2 := hsnd
        rw [← hsnd2]
        exact ⟨hfail.1, hfail.2.1⟩
      · intro p hp hgw
        rw [hco]
        exact hfail.2.2

/-- Concrete cart validation: two units of the 100-rupee product. -/
theorem buildItems_exShop :
    buildItems exShop.products exReq.items = .ok (200, [c7wItem]) := by
  norm_num [buildItems, findProduct, exShop, exReq, exProduct, c7wItem]

/-- Concrete checkout against exShop reduces to the write path with no
coupon, discount zero and total 200. -/
theorem create_order_exShop_eq (gw : GatewayOutcome) :
    create_order 0 gw exShop exReq = finishOrder gw exShop none 0 200 [c7wItem] := by
  have hap : applyCoupon exShop.coupons 0 (pyUpper (pyStrip exReq.couponCode)) 200
      = (none, 0, 200) := by
    rw [show pyUpper (pyStrip exReq.couponCode) = "" from rfl, applyCoupon_empty]
  rw [create_order, buildItems_exShop]
  simp only [hap]

/-- C6 witness: atomicity at concrete requests — an unknown product id
leaves the ledger untouched, and a configuration failure of the gateway
leaves the order and payment tables as they were while reporting the
gateway error. -/
theorem c6_create_order_atomic_witness :
    (create_order 0 .configError exShop exReqBadProduct).2 = exShop ∧
    (create_order 0 .configError exShop exReq).2.orders = exShop.orders ∧
    (create_order 0 .configError exShop exReq).2.payments = exShop.payments ∧
    (create_order 0 .configError exShop exReq).1 = .gatewayUnavailable true := by
  have h1 := c6_create_order_atomic 0 .configError exShop exReqBadProduct (by decide)
  have h2 := c6_create_order_atomic 0 .configError exShop exReq (by decide)
  have e1 : create_order 0 .configError exShop exReqBadProduct =
      (.notFound ("Product with ID " ++ toString 9 ++ " not found"),
        (create_order 0 .configError exShop exReqBadProduct).2) := rfl
  have hfail := finishOrder_gwfail .configError exShop none 0 200 [c7wItem]
    (by decide) (Or.inl rfl)
  have e2 : create_order 0 .configError exShop exReq =
      (.gatewayUnavailable true, (create_order 0 .configError exShop exReq).2) := by
    rw [create_order_exShop_eq]
    exact Prod.ext_iff.mpr ⟨hfail.2.2, rfl⟩
  have hroll := h2.2.2.1 true _ e2
  refine ⟨h1.2.1 _ _ e1, hroll.1, hroll.2, ?_⟩
  exact h2.2.2.2 (200, [c7wItem]) buildItems_exShop (Or.inl rfl)

/-! ## Claim C7 -/

/-- C7: for every successfully created order, the stored total equals the
sum of its item subtotals minus the stored discount, clamped at zero, and
every item subtotal equals its unit price times its quantity. -/
theorem c7_total_amount_invariant (today : ℕ) (gw : GatewayOutcome) (st : ShopState)
    (req : CreateReq) (resp : CreateResp) (st2 : ShopState)
    (hps : ∀ p ∈ st.products, 0 ≤ p.price)
    (h : create_order today gw st req = (.created resp, st2)) :
    ∃ o ∈ st2.orders, o.orderId = resp.orderId ∧
      o.totalAmount = max 0 (sumSubtotals o.items - o.discountAmount) ∧
      ∀ it ∈ o.items, it.subtotal = it.productPrice * (it.quantity : ℚ) := by
  cases hbi : buildItems st.products req.items with
  | error e =>
    cases e with
    | insufficientStock n a =>
      have hco : create_order today gw st req =
          (.badRequest ("Insufficient stock for " ++ n), st) := by
        rw [create_order, hbi]
      rw [hco] at h
      simp at h
    | productNotFound pid =>
      have hco : create_order today gw st req =
          (.notFound ("Product with ID " ++ toString pid ++ " not found"), st) := by
        rw [create_order, hbi]
      rw [hco] at h
      simp at h
  | ok pr =>
    obtain ⟨t0, items⟩ := pr
    have hco : create_order today gw st req =
        finishOrder gw st
          (applyCoupon st.coupons today (pyUpper (pyStrip req.couponCode)) t0).1
          (applyCoupon st.coupons today (pyUpper (pyStrip req.couponCode)) t0).2.1
          (applyCoupon st.coupons today (pyUpper (pyStrip req.couponCode)) t0).2.2
          items := by
      rw [create_order, hbi]
    rw [hco] at h
    cases gw with
    | configError => simp [finishOrder] at h
    | apiError => simp [finishOrder] at h
    | ok rzId =>
      have hfst := congrArg Prod.fst h
      rw [finishOrder_ok_resp] at hfst
      have hfst2 : CreateResult.created
          { orderId := mkOrderId st.nextOrderKey, razorpayOrderId := rzId,
            amountPaise := amount_paise
              (applyCoupon st.coupons today (pyUpper (pyStrip req.couponCode)) t0).2.2,
            currency := "INR" } = CreateResult.created resp := hfst
      injection hfst2 with hrespEq
      have hsnd : (finishOrder (.ok rzId) st
          (applyCoupon st.coupons today (pyUpper (pyStrip req.couponCode)) t0).1
          (applyCoupon st.coupons today (pyUpper (pyStrip req.couponCode)) t0).2.1
          (applyCoupon st.coupons today (pyUpper (pyStrip req.couponCode)) t0).2.2
          items).2 = st2 := congrArg Prod.snd h
      obtain ⟨o, ho, hOid, hTot, hDisc, hItems, hCode, hRz⟩ :=
        finishOrder_ok_mem st
          (applyCoupon st.coupons today (pyUpper (pyStrip req.couponCode)) t0).1
          (applyCoupon st.coupons today (pyUpper (pyStrip req.couponCode)) t0).2.1
          (applyCoupon st.coupons today (pyUpper (pyStrip req.couponCode)) t0).2.2
          items rzId
      rw [hsnd] at ho
      obtain ⟨hsum, hnn, hitems⟩ := buildItems_ok_spec st.products hps req.items t0 items hbi
      refine ⟨o, ho, ?_, ?_, ?_⟩
      · rw [hOid, ← hrespEq]
      · rw [hTot, hDisc, hItems, ← hsum]
        exact applyCoupon_total st.coupons today (pyUpper (pyStrip req.couponCode)) t0 hnn
      · intro it hit
        rw [hItems] at hit
        exact hitems it hit

/-- C7 witness: the invariant holds for the concrete successful checkout of
two 100-rupee units: the created order carries total 200, discount 0, and
its single item subtotal 200 = 100 times 2. -/
theorem c7_total_amount_invariant_witness :
    c7wOrder ∈ (create_order 0 (.ok "rz") exShop exReq).2.orders ∧
    c7wOrder.totalAmount = max 0 (sumSubtotals c7wOrder.items - c7wOrder.discountAmount) ∧
    c7wItem.subtotal = c7wItem.productPrice * (c7wItem.quantity : ℚ) := by
  have hfst : (create_order 0 (.ok "rz") exShop exReq).1 =
      .created { orderId := mkOrderId 0, razorpayOrderId := "rz",
                 amountPaise := amount_paise 200, currency := "INR" } := by
    rw [create_order_exShop_eq]
    rfl
  have E : create_order 0 (.ok "rz") exShop exReq =
      (.created { orderId := mkOrderId 0, razorpayOrderId := "rz",
                  amountPaise := amount_paise 200, currency := "INR" },
        (create_order 0 (.ok "rz") exShop exReq).2) := by
    exact Prod.ext_iff.mpr ⟨hfst, rfl⟩
  have horders : (create_order 0 (.ok "rz") exShop exReq).2.orders = [c7wOrder] := by
    rw [create_order_exShop_eq]
    simp [finishOrder, insertPaymentStep, setRzOrderIdStep, bumpCouponStep,
      insertOrderStep, exShop, c7wOrder, c7wItem]
    rfl
  obtain ⟨o, ho, hOid, hTot, hItems⟩ :=
    c7_total_amount_invariant 0 (.ok "rz") exShop exReq _ _
      (by intro p hp; simp [exShop, exProduct] at hp; rw [hp]; norm_num [exProduct]) E
  rw [horders] at ho
  obtain rfl := List.mem_singleton.mp ho
  refine ⟨?_, hTot, ?_⟩
  · rw [horders]
    exact List.mem_singleton.mpr rfl
  · exact hItems c7wItem (by simp [c7wOrder])

/-! ## Claim C8 -/

/-- C8 counterexample. The usage increment at views.py line 459 is a
read-then-write with no conditional guard: two interleaved checkouts that
both read a coupon with one remaining use both pass validation and both
attach the coupon, so two orders carry a code whose max_uses is 1 (and the
lost update leaves times_used at 1, masking the overuse). -/
theorem c8_coupon_race_cex :
    c8coupon.maxUses = some 1 ∧
    (twoCheckoutsInterleaved c8coupon 0 100).1 = 2 ∧
    (twoCheckoutsInterleaved c8coupon 0 100).2.timesUsed = 1 := by
  have hv : couponValidCheck c8coupon 0 100 = true := by
    simp only [couponValidCheck, couponExpired, couponMaxed, couponBelowMin, c8coupon,
      Bool.and_eq_true, Bool.not_eq_true', decide_eq_false_iff_not]
    norm_num
  refine ⟨rfl, ?_, ?_⟩
  · rw [twoCheckoutsInterleaved, hv]
    simp
  · rw [twoCheckoutsInterleaved, hv]
    simp only [if_pos, couponIncrementWrite]
    decide

/-- C8 (amended): the increment is an unconditional read-then-write of the
snapshot value plus one, not an atomic conditional update, so the cap can
be overshot by concurrent checkouts (see the counterexample). Sequentially,
however, the invariant times_used less-or-equal max_uses is preserved by
every create_order call, because the same check guards validation and the
snapshot written is the validated one plus one. -/
theorem c8_sequential_cap (today : ℕ) (gw : GatewayOutcome) (st : ShopState)
    (req : CreateReq)
    (hkeys : st.coupons.Pairwise (fun a b => a.key ≠ b.key))
    (hinv : ∀ c ∈ st.coupons, ∀ m, c.maxUses = some m → c.timesUsed ≤ m) :
    ∀ c2 ∈ (create_order today gw st req).2.coupons,
      ∀ m, c2.maxUses = some m → c2.timesUsed ≤ m := by
  cases hbi : buildItems st.products req.items with
  | error e =>
    cases e with
    | insufficientStock n a =>
      have hco : create_order today gw st req =
          (.badRequest ("Insufficient stock for " ++ n), st) := by
        rw [create_order, hbi]
      rw [hco]
      exact hinv
    | productNotFound pid =>
      have hco : create_order today gw st req =
          (.notFound ("Product with ID " ++ toString pid ++ " not found"), st) := by
        rw [create_order, hbi]
      rw [hco]
      exact hinv
  | ok pr =>
    obtain ⟨t0, items⟩ := pr
    have hco : create_order today gw st req =
        finishOrder gw st
          (applyCoupon st.coupons today (pyUpper (pyStrip req.couponCode)) t0).1
          (applyCoupon st.coupons today (pyUpper (pyStrip req.couponCode)) t0).2.1
          (applyCoupon st.coupons today (pyUpper (pyStrip req.couponCode)) t0).2.2
          items := by
      rw [create_order, hbi]
    rw [hco, finishOrder_coupons]
    cases hA : (applyCoupon st.coupons today (pyUpper (pyStrip req.couponCode)) t0).1 with
    | none => exact hinv
    | some c =>
      obtain ⟨hcmem, hcvalid⟩ := applyCoupon_some_inv st.coupons today
        (pyUpper (pyStrip req.couponCode)) t0 c hA
      intro c2 hc2 m hm
      simp only [] at hc2
      rcases List.mem_map.mp hc2 with ⟨x, hx, hxeq⟩
      by_cases hk : x.key = c.key
      · have hxc : x = c := coupon_key_unique st.coupons hkeys x hx c hcmem hk
        subst hxc
        rw [if_pos hk, couponIncrementWrite] at hxeq
        subst hxeq
        simp only [couponValidCheck, Bool.and_eq_true, Bool.not_eq_true'] at hcvalid
        obtain ⟨⟨_, hmaxed⟩, _⟩ := hcvalid
        simp only at hm
        have hmu : x.maxUses = some m := hm
        rw [couponMaxed.eq_def, hmu] at hmaxed
        simp only [decide_eq_false_iff_not] at hmaxed
        simp only
        omega
      · rw [if_neg hk] at hxeq
        subst hxeq
        exact hinv x hx m hm

/-- C8 witness: the sequential invariant holds at the concrete shop with the
coupon SAVE10 at 2 of 5 uses, checked on the stored coupon after a
successful checkout. -/
theorem c8_sequential_cap_witness :
    exCoupon.maxUses = some 5 ∧
    exCoupon ∈ (create_order 0 (.ok "rz") exShop exReq).2.coupons ∧
    exCoupon.timesUsed ≤ 5 := by
  have h := c8_sequential_cap 0 (.ok "rz") exShop exReq (by simp [exShop])
    (by
      intro c hc m hm
      simp only [exShop, List.mem_singleton] at hc
      subst hc
      simp only [exCoupon, Option.some.injEq] at hm
      simp only [exCoupon]
      omega)
  have hmem : exCoupon ∈ (create_order 0 (.ok "rz") exShop exReq).2.coupons := by
    rw [create_order_exShop_eq, finishOrder_coupons]
    simp [exShop]
  exact ⟨rfl, hmem, h exCoupon hmem 5 rfl⟩

/-! ## Claim C10 -/

/-- C10: the public create_order endpoint drops any client-supplied
coupon_code before the view reads it (the serializer declares no such
field), so every order created through the endpoint carries discount zero
and an empty coupon code. -/
theorem c10_no_coupon_via_endpoint (today : ℕ) (gw : GatewayOutcome) (st : ShopState)
    (raw : RawCreateRequest) (resp : CreateResp) (st2 : ShopState)
    (h : create_order_view today gw st raw = (.created resp, st2)) :
    dictGetD (serializerValidatedData raw.fields) "coupon_code" "" = "" ∧
    ∃ o ∈ st2.orders, o.orderId = resp.orderId ∧ o.discountAmount = 0 ∧
      o.couponCode = "" := by
  refine ⟨coupon_code_dropped raw.fields, ?_⟩
  rw [create_order_view, coupon_code_dropped raw.fields] at h
  cases hbi : buildItems st.products raw.items with
  | error e =>
    cases e with
    | insufficientStock n a =>
      have hco : create_order today gw st { items := raw.items, couponCode := "" } =
          (.badRequest ("Insufficient stock for " ++ n), st) := by
        rw [create_order, hbi]
      rw [hco] at h
      simp at h
    | productNotFound pid =>
      have hco : create_order today gw st { items := raw.items, couponCode := "" } =
          (.notFound ("Product with ID " ++ toString pid ++ " not found"), st) := by
        rw [create_order, hbi]
      rw [hco] at h
      simp at h
  | ok pr =>
    obtain ⟨t0, items⟩ := pr
    have hco : create_order today gw st { items := raw.items, couponCode := "" } =
        finishOrder gw st none 0 t0 items := by
      have hap : applyCoupon st.coupons today (pyUpper (pyStrip "")) t0
          = (none, 0, t0) := by
        rw [show pyUpper (pyStrip "") = "" from rfl, applyCoupon_empty]
      rw [create_order, hbi]
      simp only [hap]
    rw [hco] at h
    cases gw with
    | configError => simp [finishOrder] at h
    | apiError => simp [finishOrder] at h
    | ok rzId =>
      have hfst := congrArg Prod.fst h
      rw [finishOrder_ok_resp] at hfst
      have hfst2 : CreateResult.created
          { orderId := mkOrderId st.nextOrderKey, razorpayOrderId := rzId,
            amountPaise := amount_paise t0, currency := "INR" } =
          CreateResult.created resp := hfst
      injection hfst2 with hrespEq
      have hsnd : (finishOrder (.ok rzId) st none 0 t0 items).2 = st2 :=
        congrArg Prod.snd h
      obtain ⟨o, ho, hOid, hTot, hDisc, hItems, hCode, hRz⟩ :=
        finishOrder_ok_mem st none 0 t0 items rzId
      rw [hsnd] at ho
      exact ⟨o, ho, by rw [hOid, ← hrespEq], hDisc, hCode⟩

/-- C10 witness: a request smuggling coupon_code HACK past the serializer
creates the same order as one with no coupon at all — discount 0, empty
coupon code. -/
theorem c10_no_coupon_via_endpoint_witness :
    dictGetD (serializerValidatedData exRaw.fields) "coupon_code" "" = "" ∧
    c7wOrder ∈ (create_order_view 0 (.ok "rz") exShop exRaw).2.orders ∧
    c7wOrder.discountAmount = 0 ∧ c7wOrder.couponCode = "" := by
  have hview : create_order_view 0 (.ok "rz") exShop exRaw =
      create_order 0 (.ok "rz") exShop exReq := rfl
  have hfst : (create_order_view 0 (.ok "rz") exShop exRaw).1 =
      .created { orderId := mkOrderId 0, razorpayOrderId := "rz",
                 amountPaise := amount_paise 200, currency := "INR" } := by
    rw [hview, create_order_exShop_eq]
    rfl
  have E : create_order_view 0 (.ok "rz") exShop exRaw =
      (.created { orderId := mkOrderId 0, razorpayOrderId := "rz",
                  amountPaise := amount_paise 200, currency := "INR" },
        (create_order_view 0 (.ok "rz") exShop exRaw).2) :=
    Prod.ext_iff.mpr ⟨hfst, rfl⟩
  have horders : (create_order_view 0 (.ok "rz") exShop exRaw).2.orders = [c7wOrder] := by
    rw [hview, create_order_exShop_eq]
    simp [finishOrder, insertPaymentStep, setRzOrderIdStep, bumpCouponStep,
      insertOrderStep, exShop, c7wOrder, c7wItem]
    rfl
  obtain ⟨h1, o, ho, hOid, hDisc, hCode⟩ :=
    c10_no_coupon_via_endpoint 0 (.ok "rz") exShop exRaw _ _ E
  rw [horders] at ho
  obtain rfl := List.mem_singleton.mp ho
  refine ⟨h1, ?_, hDisc, hCode⟩
  rw [horders]
  exact List.mem_singleton.mpr rfl

end PrintBox
